import Mathlib

/-!
Verification development for the PSF launcher (`PsfLauncher/main.cpp`).

The launcher orchestrates a pipeline of child-process launches:
optional pre-script, optional monitor, primary application, optional
post-script.  The C++ code is embedded shallowly below: every operation of
`main.cpp` becomes a pure Lean function, the OS services it calls
(registry, `CreateProcessW`, `ShellExecuteEx`, `std::filesystem::exists`)
become an explicit oracle structure `OS`, and the observable behaviour
(child launches, error reports, exit code) becomes an event trace.
-/

namespace PsfLauncher

/-- Win32 `ERROR_FILE_NOT_FOUND`. -/
def ERROR_FILE_NOT_FOUND : Nat := 2

/-- Win32 `ERROR_NOT_FOUND`, thrown when no app config matches. -/
def ERROR_NOT_FOUND : Nat := 1168

/-- HRESULT `E_APPLICATION_NOT_REGISTERED` (`0x80073CF9`), returned when a
start script is configured but PowerShell is not installed. -/
def E_APPLICATION_NOT_REGISTERED : Nat := 0x80073CF9

/-- Modelled from the spec: the `ErrorRecord` carrier (`ErrorInformation.h`
is not among the provided sources; `main.cpp` uses its constructors
`{message, code}` / `{message, code, executable}`, the default `{}`
meaning "no error", and the members `IsThereAnError`, `GetErrorNumber`,
`AddExeName`, `Print`).  `err` holds the message and numeric code when an
error is present; `exeName` is the optional executable tag attached after
construction. -/
structure ErrorInformation where
  err : Option (String × Nat)
  exeName : Option String
  deriving DecidableEq

/-- The default-constructed `ErrorInformation{}`: no error. -/
def noError : ErrorInformation := { err := none, exeName := none }

/-- Modelled from the spec: an `ErrorRecord` is present exactly when a
message/code pair was recorded. -/
def ErrorInformation.IsThereAnError (e : ErrorInformation) : Bool :=
  e.err.isSome

/-- Modelled from the spec: the numeric code of the record (0 when none). -/
def ErrorInformation.GetErrorNumber (e : ErrorInformation) : Nat :=
  match e.err with
  | some p => p.2
  | none => 0

/-- Modelled from the spec: attach the executable tag after construction;
the message and code are untouched. -/
def ErrorInformation.AddExeName (e : ErrorInformation) (name : String) : ErrorInformation :=
  { e with exeName := some name }

/-- Modelled from the spec: render the record for the host reporter; the
text carries the message, the executable tag when present, and the code. -/
def ErrorInformation.Print (e : ErrorInformation) : String :=
  match e.err with
  | none => ""
  | some p =>
      p.1 ++ (match e.exeName with
              | some n => n ++ (" ")
              | none => "") ++ toString p.2

/-- A script entry of the launch configuration (`startScript` /
`endScript` JSON objects): `scriptPath` is required, the other two keys
are optional.  `runInVirtualEnvironment` keeps the raw JSON string value
so that the pointer-to-bool conversion in `RunScript` can be modelled. -/
structure ScriptSpec where
  scriptPath : String
  scriptArguments : Option String
  runInVirtualEnvironment : Option String
  deriving DecidableEq

/-- The monitor entry of the launch configuration. -/
structure MonitorSpec where
  executable : String
  arguments : String
  asadmin : Option Bool
  wait : Option Bool
  deriving DecidableEq

/-- The matched application launch entry (`appConfig` in `launcher_main`):
`executable` is required, `arguments` and `workingDirectory` optional. -/
structure AppConfig where
  executable : String
  arguments : Option String
  workingDirectory : Option String
  deriving DecidableEq

/-- Everything the config provider returns for one invocation. -/
structure Config where
  appConfig : Option AppConfig
  packageRoot : String
  startScript : Option ScriptSpec
  endScript : Option ScriptSpec
  monitor : Option MonitorSpec
  deriving DecidableEq

/-- Outcome of one `CreateProcessW` plus the subsequent
`WaitForSingleObject` in `StartProcess`. -/
inductive CreateProcessOutcome where
  | failed (lastError : Nat)
  | ranWaitSignaled
  | ranWaitFailed (lastError : Nat)
  deriving DecidableEq

/-- Oracle for every OS service `main.cpp` calls: the registry probe used
by `CheckIfPowershellIsInstalled`, `std::filesystem::exists`,
`CreateProcessW` (+wait), plain `ShellExecuteEx`, and elevated
`ShellExecuteEx` (`runas`). -/
structure OS where
  registryCreateResult : Nat
  registryQueryResult : Nat
  registryValue : Nat
  fileExists : String → Bool
  createProcess : Option String → String → Option String → Bool → Nat → CreateProcessOutcome
  shellExecute : String → String → Option String → Option Nat
  shellExecuteElevated : String → String → Bool → Option Nat

/-- Observable actions of one launcher invocation, in order:
`createProcessAttempt` records a direct `CreateProcessW` call (the Bool is
whether the desktop-app-policy breakaway attribute was attached to the
startup descriptor), `shellExecuteAttempt` a plain shell activation,
`elevatedShellExecuteAttempt` a `runas` activation, `fileProbe` a
`std::filesystem::exists` test, and `report` a `PSFReportError` call. -/
inductive Event where
  | createProcessAttempt (applicationName : Option String) (commandLine : String)
      (currentDirectory : Option String) (attrAttached : Bool) (cmdShow : Nat)
  | shellExecuteAttempt (file : String) (params : String) (directory : Option String)
      (cmdShow : Nat)
  | elevatedShellExecuteAttempt (file : String) (params : String) (wait : Bool)
  | fileProbe (path : String)
  | report (text : String)
  deriving DecidableEq

/-- Is this event a `PSFReportError` call? -/
def Event.isReport : Event → Bool
  | Event.report _ => true
  | _ => false

/-- Is this event a child-process launch attempt of any strategy? -/
def Event.isLaunch : Event → Bool
  | Event.createProcessAttempt _ _ _ _ _ => true
  | Event.shellExecuteAttempt _ _ _ _ => true
  | Event.elevatedShellExecuteAttempt _ _ _ => true
  | _ => false

/-- Number of `PSFReportError` calls in a trace. -/
def countReports (evs : List Event) : Nat :=
  (evs.filter Event.isReport).length

/-- Application names of the direct `CreateProcessW` attempts in a trace. -/
def createProcessAppNames : List Event → List (Option String)
  | [] => []
  | Event.createProcessAttempt n _ _ _ _ :: evs => n :: createProcessAppNames evs
  | _ :: evs => createProcessAppNames evs

/-- Number of direct `CreateProcessW` attempts in a trace. -/
def createProcessCount (evs : List Event) : Nat :=
  (createProcessAppNames evs).length

/-- For each direct `CreateProcessW` attempt, whether the
desktop-app-policy attribute was attached to its startup descriptor. -/
def createProcessAttrFlags : List Event → List Bool
  | [] => []
  | Event.createProcessAttempt _ _ _ b _ :: evs => b :: createProcessAttrFlags evs
  | _ :: evs => createProcessAttrFlags evs

/-- Files of the plain (non-elevated) shell activations in a trace. -/
def shellExecuteFiles : List Event → List String
  | [] => []
  | Event.shellExecuteAttempt f _ _ _ :: evs => f :: shellExecuteFiles evs
  | _ :: evs => shellExecuteFiles evs

/-- Number of plain shell activations in a trace. -/
def shellExecuteCount (evs : List Event) : Nat :=
  (shellExecuteFiles evs).length

/-- Modelled from the spec: `std::filesystem::path::operator/` for the
relative right-hand sides the launcher uses (all configured paths are
relative to the package root).  An empty left side yields the right side;
a left side already ending in a separator is appended to directly;
otherwise the preferred separator is inserted. -/
def joinPath (a b : String) : String :=
  if a = ("") then b
  else if a.data.getLast? = some ('\\') then a ++ b
  else a ++ ("\\") ++ b

/-- Modelled from the spec: `std::filesystem::path::filename` — the
component after the last directory separator. -/
def pathFilename (p : String) : String :=
  String.mk ((p.data.reverse.takeWhile fun c => !(c == ('\\') || c == ('/'))).reverse)

/-- `auto dirStr = dirPtr ? dirPtr->as_string().wide() : L"";`
(main.cpp line 69). -/
def dirStrOf (appConfig : AppConfig) : String :=
  appConfig.workingDirectory.getD ("")

/-- `std::wstring::find(c, pos)` restricted to single characters:
the index of the first occurrence of `c` at or after `pos`
(`none` models `npos`). -/
def wstringFind (s : List Char) (c : Char) : Option Nat :=
  match s with
  | [] => none
  | x :: xs => if x = c then some 0 else (wstringFind xs c).map (fun i => i + 1)

/-- `find` from a starting offset, as used in `StartProcess`. -/
def findFrom (s : List Char) (c : Char) (pos : Nat) : Option Nat :=
  (wstringFind (s.drop pos) c).map (fun i => i + pos)

/-- The quote-aware program-name extraction of `StartProcess`
(main.cpp lines 388-399), used when `ApplicationName` is null:
if the command line starts with `"`, take `substr(1, find(QUOTE,1) - 1)`
(the text between the first pair of quotes); otherwise take
`substr(0, find(SPACE))` (the text before the first space).  A `find`
miss returns `npos`, which makes `substr` take the whole remainder. -/
def applicationNameForError (cmdLine : List Char) : List Char :=
  if cmdLine.head? = some ('"') then
    match findFrom cmdLine ('"') 1 with
    | some i => (cmdLine.drop 1).take (i - 1)
    | none => cmdLine.drop 1
  else
    match findFrom cmdLine (' ') 0 with
    | some i => cmdLine.take i
    | none => cmdLine

/-- The name used in the `StartProcess` launch-failure message:
`ApplicationName` when non-null, otherwise the quote-aware parse of the
command line (main.cpp lines 382-401). -/
def startProcessFailureName (applicationName : Option (List Char)) (cmdLine : List Char) : List Char :=
  match applicationName with
  | some n => n
  | none => applicationNameForError cmdLine

/-- The `ExecutionInformation` aggregate handed to `StartProcess`. -/
structure ExecutionInformation where
  ApplicationName : Option String
  CommandLine : String
  CurrentDirectory : Option String
  deriving DecidableEq

/-- `StartProcess` (main.cpp lines 298-405).  When
`runInVirtualEnvironment` is true the desktop-app-policy attribute
(`PROCESS_CREATION_DESKTOP_APP_BREAKAWAY_DISABLE_PROCESS_TREE`) is
attached to the startup descriptor; attribute-initialization failures are
constructed into locals and discarded (lines 334-336, 347-348), so they
have no observable effect and the launch proceeds.  Then `CreateProcessW`
is issued and, on success, the child is awaited. -/
def StartProcess (os : OS) (execInfo : ExecutionInformation) (cmdShow : Nat)
    (runInVirtualEnvironment : Bool) : ErrorInformation × List Event :=
  let ev := Event.createProcessAttempt execInfo.ApplicationName execInfo.CommandLine
    execInfo.CurrentDirectory runInVirtualEnvironment cmdShow
  match os.createProcess execInfo.ApplicationName execInfo.CommandLine
      execInfo.CurrentDirectory runInVirtualEnvironment cmdShow with
  | CreateProcessOutcome.failed lastError =>
      ({ err := some (("ERROR: Failed to create a process for ")
            ++ String.mk (startProcessFailureName (execInfo.ApplicationName.map String.data)
                  execInfo.CommandLine.data)
            ++ (" "), lastError),
         exeName := none }, [ev])
  | CreateProcessOutcome.ranWaitSignaled => (noError, [ev])
  | CreateProcessOutcome.ranWaitFailed lastError =>
      ({ err := some (("Running process failed."), lastError), exeName := none }, [ev])

/-- `StartWithShellExecute` (main.cpp lines 407-432): shell-activate
`packageRoot / exeName` with the configured arguments; the launcher's own
pass-through arguments are not included.  `dirStr` is never null when
called from `launcher_main` (it defaults to the empty string), so the
working directory is always `packageRoot / dirStr`. -/
def StartWithShellExecute (os : OS) (packageRoot exeName : String) (exeArgString : String)
    (dirStr : String) (cmdShow : Nat) : ErrorInformation × List Event :=
  let nonExePath := joinPath packageRoot exeName
  let directory := some (joinPath packageRoot dirStr)
  let ev := Event.shellExecuteAttempt nonExePath exeArgString directory cmdShow
  match os.shellExecute nonExePath exeArgString directory with
  | some lastError =>
      ({ err := some (("ERROR: Failed to create detoured shell process"), lastError),
         exeName := none }, [ev])
  | none => (noError, [ev])

/-- `RunScript` (main.cpp lines 171-214): compose
`Powershell.exe -file <scriptPath> <scriptArguments>`, test that
`packageRoot / workingDirectory / scriptPath` exists, and either delegate
to `StartProcess` (with `ApplicationName` null and the
`runInVirtualEnvironment` flag) or return a file-not-found record without
launching.  Line 199 assigns the `wchar_t*` returned by
`as_string().wide()` to a `bool`, so the flag is true exactly when the
`runInVirtualEnvironment` key is present, whatever its value. -/
def RunScript (os : OS) (scriptInformation : ScriptSpec) (packageRoot : String)
    (dirStr : String) (cmdShow : Nat) : ErrorInformation × List Event :=
  let powershellCommandString := ("Powershell.exe -file ") ++ scriptInformation.scriptPath
    ++ (" ") ++ scriptInformation.scriptArguments.getD ("")
  let currentDirectory := joinPath packageRoot dirStr
  let scriptFullPath := joinPath currentDirectory scriptInformation.scriptPath
  if os.fileExists scriptFullPath then
    let runInVirtualEnvironment := scriptInformation.runInVirtualEnvironment.isSome
    let p := StartProcess os
      { ApplicationName := none, CommandLine := powershellCommandString,
        CurrentDirectory := some currentDirectory } cmdShow runInVirtualEnvironment
    (p.1, Event.fileProbe scriptFullPath :: p.2)
  else
    ({ err := some (("The PowerShell file ") ++ scriptFullPath ++ (" can't be found"),
          ERROR_FILE_NOT_FOUND),
       exeName := none }, [Event.fileProbe scriptFullPath])

/-- `LaunchMonitorInBackground` (main.cpp lines 240-296).  With `asAdmin`
the monitor is launched by elevated shell activation; when that
activation fails, line 279 constructs an `ErrorInformation` into a local
that is immediately discarded, and both outcomes fall through to
`return {}` (line 295).  Without `asAdmin` the monitor is launched by
`StartProcess` with `ApplicationName` set to the configured (relative)
executable, and the result is tagged with that executable. -/
def LaunchMonitorInBackground (os : OS) (packageRoot executable arguments : String)
    (wait asAdmin : Bool) (cmdShow : Nat) (dirStr : String) : ErrorInformation × List Event :=
  let cmd := ("\"") ++ joinPath packageRoot executable ++ ("\"")
  if asAdmin then
    match os.shellExecuteElevated cmd arguments wait with
    | some _lastError => (noError, [Event.elevatedShellExecuteAttempt cmd arguments wait])
    | none => (noError, [Event.elevatedShellExecuteAttempt cmd arguments wait])
  else
    let p := StartProcess os
      { ApplicationName := some executable, CommandLine := cmd ++ (" ") ++ arguments,
        CurrentDirectory := some (joinPath packageRoot dirStr) } cmdShow false
    (p.1.AddExeName executable, p.2)

/-- `GetAndLaunchMonitor` (main.cpp lines 216-238): read the optional
`asadmin` and `wait` booleans (defaulting to false) and delegate. -/
def GetAndLaunchMonitor (os : OS) (monitor : MonitorSpec) (packageRoot : String)
    (cmdShow : Nat) (dirStr : String) : ErrorInformation × List Event :=
  let asAdmin := monitor.asadmin.getD false
  let wait := monitor.wait.getD false
  LaunchMonitorInBackground os packageRoot monitor.executable monitor.arguments
    wait asAdmin cmdShow dirStr

/-- `CheckIfPowershellIsInstalled` (main.cpp lines 478-510): open
`HKLM\SOFTWARE\Microsoft\PowerShell\1` (error record on failure), query
the `Install` DWORD (error record on failure, out-parameter untouched so
the caller still sees its `false` initialisation), otherwise report
installed exactly when the value equals 1. -/
def CheckIfPowershellIsInstalled (createResult queryResult valueFromRegistry : Nat) :
    ErrorInformation × Bool :=
  if createResult ≠ 0 then
    ({ err := some (("Error with getting the key to see if PowerShell is installed. "),
          createResult), exeName := none }, false)
  else if queryResult ≠ 0 then
    ({ err := some (("Error with querying the key to see if PowerShell is installed. "),
          queryResult), exeName := none }, false)
  else
    (noError, valueFromRegistry == 1)

/-- Case-insensitive character comparison of `iwstring_view`.  Modelled
from the spec: the traits lowercase both sides (`towlower`); the suffix
helper below lowercases whole strings with it. -/
def ilower (s : List Char) : List Char :=
  s.map Char.toLower

/-- `check_suffix_if` (main.cpp lines 434-442): true when `str` is at
least as long as `suffix` and its final `suffix.length()` characters
compare equal under the case-insensitive traits. -/
def check_suffix_if (str suffix : List Char) : Bool :=
  if suffix.length ≤ str.length ∧ ilower (str.drop (str.length - suffix.length)) = ilower suffix
  then true
  else false

/-- The spec-side reading of the suffix dispatch: `str` ends with
`suffix` when both are compared case-insensitively. -/
def endsWithCaseInsensitive (str suffix : List Char) : Bool :=
  (ilower suffix).isSuffixOf (ilower str)

/-- The monitor stage of `launcher_main` (lines 105-110): when a monitor
is configured, launch it and carry its result; otherwise the carried
error stays empty. -/
def monitorStage (os : OS) (cfg : Config) (cmdShow : Nat) (dirStr : String) :
    ErrorInformation × List Event :=
  match cfg.monitor with
  | some monitor => GetAndLaunchMonitor os monitor cfg.packageRoot cmdShow dirStr
  | none => (noError, [])

/-- The primary-application stage of `launcher_main` (lines 112-141):
compose the quoted command line and dispatch on the `.exe` suffix —
direct `StartProcess` with `ApplicationName = packageRoot / executable`
(result tagged with the executable), or shell activation. -/
def primaryStage (os : OS) (cfg : Config) (appConfig : AppConfig) (args : String)
    (cmdShow : Nat) (dirStr : String) : ErrorInformation × List Event :=
  let exeName := appConfig.executable
  let exePath := joinPath cfg.packageRoot exeName
  let exeArgString := appConfig.arguments.getD ("")
  let cmdLine := ("\"") ++ pathFilename exePath ++ ("\" ") ++ exeArgString ++ (" ") ++ args
  if check_suffix_if exeName.data ((".exe").data) then
    let currentDirectory := joinPath cfg.packageRoot dirStr
    let p := StartProcess os
      { ApplicationName := some exePath, CommandLine := cmdLine,
        CurrentDirectory := some currentDirectory } cmdShow false
    (p.1.AddExeName exeName, p.2)
  else
    StartWithShellExecute os cfg.packageRoot exeName exeArgString dirStr cmdShow

/-- Lines 105-141 of `launcher_main`: the monitor stage followed — only
when the monitor stage carried no error — by the primary stage.  The
result is the carried error and the accumulated trace. -/
def stagesBeforePost (os : OS) (cfg : Config) (appConfig : AppConfig) (args : String)
    (cmdShow : Nat) (dirStr : String) : ErrorInformation × List Event :=
  let m := monitorStage os cfg cmdShow dirStr
  if m.1.IsThereAnError then m
  else
    let p := primaryStage os cfg appConfig args cmdShow dirStr
    (p.1, m.2 ++ p.2)

/-- Lines 105-163 of `launcher_main`: after the pre-script block, run
monitor and primary, then — unconditionally when an end script is
configured — run the end script; tag the carried error with
`PowerShell.exe` (line 148); report and exit with the carried error if
present, else with the end-script error if present, else exit 0.  With no
end script configured, exit 0 without reporting (even if an error was
carried). -/
def launcherAfterPreScript (os : OS) (cfg : Config) (appConfig : AppConfig) (args : String)
    (cmdShow : Nat) (dirStr : String) : Nat × List Event :=
  let r := stagesBeforePost os cfg appConfig args cmdShow dirStr
  match cfg.endScript with
  | some endScriptInformation =>
      let r2 := RunScript os endScriptInformation cfg.packageRoot dirStr cmdShow
      let errorTagged := r.1.AddExeName ("PowerShell.exe")
      if errorTagged.IsThereAnError then
        (errorTagged.GetErrorNumber, r.2 ++ r2.2 ++ [Event.report errorTagged.Print])
      else if r2.1.IsThereAnError then
        (r2.1.GetErrorNumber, r.2 ++ r2.2 ++ [Event.report r2.1.Print])
      else
        (0, r.2 ++ r2.2)
  | none => (0, r.2)

/-- Message reported when a start script is configured but PowerShell is
not installed (main.cpp line 90). -/
def powershellNotInstalledMessage : String :=
  "PowerShell is not installed.  Please install PowerShell to run scripts in PSF"

/-- Message of the `ERROR_NOT_FOUND` exception thrown when no app config
matches (main.cpp line 65), reported by the catch-all handler. -/
def configNotFoundMessage : String :=
  "Error: could not find matching appid in config.json and appx manifest"

/-- Lines 75-101 of `launcher_main`: the PowerShell probe and the
pre-script block.  `Sum.inl` is an early exit (exit code and full trace);
`Sum.inr` carries the events so far and continues the pipeline. -/
def preScriptPhase (os : OS) (cfg : Config) (dirStr : String) (cmdShow : Nat) :
    Sum (Nat × List Event) (List Event) :=
  let probe := CheckIfPowershellIsInstalled os.registryCreateResult os.registryQueryResult
    os.registryValue
  if probe.1.IsThereAnError then
    Sum.inl (probe.1.GetErrorNumber, [Event.report probe.1.Print])
  else
    match cfg.startScript with
    | some startScriptInformation =>
        if probe.2 then
          let r := RunScript os startScriptInformation cfg.packageRoot dirStr cmdShow
          if r.1.IsThereAnError then
            Sum.inl (r.1.GetErrorNumber, r.2 ++ [Event.report r.1.Print])
          else
            Sum.inr r.2
        else
          Sum.inl (E_APPLICATION_NOT_REGISTERED, [Event.report powershellNotInstalledMessage])
    | none => Sum.inr []

/-- `launcher_main` (main.cpp lines 59-169): resolve the app config
(reporting `ERROR_NOT_FOUND` when absent), run the probe and pre-script
phase, then the monitor / primary / post-script pipeline.  The result is
the process exit code and the ordered trace of observable actions. -/
def launcher_main (os : OS) (cfg : Config) (args : String) (cmdShow : Nat) :
    Nat × List Event :=
  match cfg.appConfig with
  | none => (ERROR_NOT_FOUND, [Event.report configNotFoundMessage])
  | some appConfig =>
      let dirStr := dirStrOf appConfig
      match preScriptPhase os cfg dirStr cmdShow with
      | Sum.inl r => r
      | Sum.inr evs =>
          let t := launcherAfterPreScript os cfg appConfig args cmdShow dirStr
          (t.1, evs ++ t.2)

/-! ### Basic lemmas about the embedded operations -/

/-- `AddExeName` leaves the message/code untouched. -/
theorem addExeName_err (e : ErrorInformation) (n : String) :
    (e.AddExeName n).err = e.err := rfl

/-- `AddExeName` does not turn a success into an error or back. -/
theorem addExeName_isThereAnError (e : ErrorInformation) (n : String) :
    (e.AddExeName n).IsThereAnError = e.IsThereAnError := rfl

/-- `AddExeName` does not change the numeric code. -/
theorem addExeName_getErrorNumber (e : ErrorInformation) (n : String) :
    (e.AddExeName n).GetErrorNumber = e.GetErrorNumber := rfl

/-- `StartProcess` records exactly one `CreateProcessW` attempt, whatever
the outcome. -/
theorem startProcess_events (os : OS) (execInfo : ExecutionInformation) (cmdShow : Nat)
    (ve : Bool) :
    (StartProcess os execInfo cmdShow ve).2
      = [Event.createProcessAttempt execInfo.ApplicationName execInfo.CommandLine
          execInfo.CurrentDirectory ve cmdShow] := by
  unfold StartProcess
  cases os.createProcess execInfo.ApplicationName execInfo.CommandLine
      execInfo.CurrentDirectory ve cmdShow <;> rfl

/-- `StartWithShellExecute` records exactly one shell activation, whatever
the outcome. -/
theorem startWithShellExecute_events (os : OS) (packageRoot exeName exeArgString dirStr : String)
    (cmdShow : Nat) :
    (StartWithShellExecute os packageRoot exeName exeArgString dirStr cmdShow).2
      = [Event.shellExecuteAttempt (joinPath packageRoot exeName) exeArgString
          (some (joinPath packageRoot dirStr)) cmdShow] := by
  simp only [StartWithShellExecute]
  cases os.shellExecute (joinPath packageRoot exeName) exeArgString
      (some (joinPath packageRoot dirStr)) <;> rfl

/-- `countReports` distributes over append. -/
theorem countReports_append (a b : List Event) :
    countReports (a ++ b) = countReports a + countReports b := by
  simp [countReports, List.filter_append]

/-- `countReports` over a cons. -/
theorem countReports_cons (ev : Event) (evs : List Event) :
    countReports (ev :: evs) = (if ev.isReport then 1 else 0) + countReports evs := by
  simp only [countReports, List.filter_cons]
  split <;> simp [Nat.add_comm]

/-- A report event is a report. -/
theorem isReport_report (t : String) : (Event.report t).isReport = true := rfl

/-- A singleton report trace has one report. -/
theorem countReports_singleton_report (t : String) :
    countReports [Event.report t] = 1 := rfl

/-- `StartProcess` never calls the host reporter. -/
theorem countReports_startProcess (os : OS) (execInfo : ExecutionInformation) (cmdShow : Nat)
    (ve : Bool) : countReports (StartProcess os execInfo cmdShow ve).2 = 0 := by
  rw [startProcess_events]; rfl

/-- `StartWithShellExecute` never calls the host reporter. -/
theorem countReports_startWithShellExecute (os : OS)
    (packageRoot exeName exeArgString dirStr : String) (cmdShow : Nat) :
    countReports (StartWithShellExecute os packageRoot exeName exeArgString dirStr cmdShow).2
      = 0 := by
  rw [startWithShellExecute_events]; rfl

/-- `RunScript` never calls the host reporter. -/
theorem countReports_runScript (os : OS) (s : ScriptSpec) (packageRoot dirStr : String)
    (cmdShow : Nat) : countReports (RunScript os s packageRoot dirStr cmdShow).2 = 0 := by
  simp only [RunScript]
  split
  · dsimp only
    rw [countReports_cons, startProcess_events]
    rfl
  · rfl

/-- `LaunchMonitorInBackground` never calls the host reporter. -/
theorem countReports_launchMonitorInBackground (os : OS)
    (packageRoot executable arguments : String) (wait asAdmin : Bool) (cmdShow : Nat)
    (dirStr : String) :
    countReports (LaunchMonitorInBackground os packageRoot executable arguments wait asAdmin
      cmdShow dirStr).2 = 0 := by
  simp only [LaunchMonitorInBackground]
  split
  · split <;> rfl
  · dsimp only
    rw [startProcess_events]
    rfl

/-- The monitor stage never calls the host reporter. -/
theorem countReports_monitorStage (os : OS) (cfg : Config) (cmdShow : Nat) (dirStr : String) :
    countReports (monitorStage os cfg cmdShow dirStr).2 = 0 := by
  unfold monitorStage
  cases cfg.monitor with
  | some m => exact countReports_launchMonitorInBackground ..
  | none => rfl

/-- The primary-application stage never calls the host reporter. -/
theorem countReports_primaryStage (os : OS) (cfg : Config) (appConfig : AppConfig)
    (args : String) (cmdShow : Nat) (dirStr : String) :
    countReports (primaryStage os cfg appConfig args cmdShow dirStr).2 = 0 := by
  simp only [primaryStage]
  split
  · dsimp only
    rw [startProcess_events]
    rfl
  · exact countReports_startWithShellExecute ..

/-- The monitor and primary stages together never call the host reporter. -/
theorem countReports_stagesBeforePost (os : OS) (cfg : Config) (appConfig : AppConfig)
    (args : String) (cmdShow : Nat) (dirStr : String) :
    countReports (stagesBeforePost os cfg appConfig args cmdShow dirStr).2 = 0 := by
  simp only [stagesBeforePost]
  split
  · exact countReports_monitorStage ..
  · dsimp only
    rw [countReports_append, countReports_monitorStage, countReports_primaryStage]

/-- When the pre-script phase decides to continue, the events it carries
contain no reporter call. -/
theorem countReports_preScriptPhase_inr (os : OS) (cfg : Config) (dirStr : String)
    (cmdShow : Nat) (evs : List Event)
    (h : preScriptPhase os cfg dirStr cmdShow = Sum.inr evs) : countReports evs = 0 := by
  simp only [preScriptPhase] at h
  split at h
  · exact absurd h (by simp)
  · split at h
    · split at h
      · split at h
        · exact absurd h (by simp)
        · rw [Sum.inr.injEq] at h
          rw [← h]
          exact countReports_runScript ..
      · exact absurd h (by simp)
    · rw [Sum.inr.injEq] at h
      rw [← h]
      rfl

/-! ### C3 — the environment probe -/

/-- C3 (counterexample): with the configuration key opening fine
(`RegCreateKeyExW` status 0) but the `Install` value query failing
(status 2, the code `RegQueryValueExW` returns when the value is absent),
`CheckIfPowershellIsInstalled` returns an **error** outcome — not the
`(false, ok)` the claim requires for an absent marker — so the claim's
"error outcome only when the key itself cannot be opened" is false. -/
theorem c3_probe_counterexample :
    (CheckIfPowershellIsInstalled 0 2 0).1.IsThereAnError = true
      ∧ (CheckIfPowershellIsInstalled 0 2 0).1.err
          = some (("Error with querying the key to see if PowerShell is installed. "), 2) :=
  ⟨rfl, rfl⟩

/-- C3 (amended): the probe returns `(false, ok)` only when the key opens
**and** the `Install` value query succeeds with a value other than 1; it
returns an error record carrying the OS status both when the key cannot
be opened and when the value query fails (e.g. the marker is absent). -/
theorem c3_probe_amended (createResult queryResult valueFromRegistry : Nat) :
    (createResult ≠ 0 →
      (CheckIfPowershellIsInstalled createResult queryResult valueFromRegistry).1.IsThereAnError
          = true
        ∧ (CheckIfPowershellIsInstalled createResult queryResult
            valueFromRegistry).1.GetErrorNumber = createResult)
    ∧ (createResult = 0 → queryResult ≠ 0 →
      (CheckIfPowershellIsInstalled createResult queryResult valueFromRegistry).1.IsThereAnError
          = true
        ∧ (CheckIfPowershellIsInstalled createResult queryResult
            valueFromRegistry).1.GetErrorNumber = queryResult)
    ∧ (createResult = 0 → queryResult = 0 →
      (CheckIfPowershellIsInstalled createResult queryResult valueFromRegistry).1.IsThereAnError
          = false
        ∧ ((CheckIfPowershellIsInstalled createResult queryResult valueFromRegistry).2 = true
            ↔ valueFromRegistry = 1)) := by
  refine ⟨fun h => ?_, fun h1 h2 => ?_, fun h1 h2 => ?_⟩
  · simp [CheckIfPowershellIsInstalled, h, ErrorInformation.IsThereAnError,
      ErrorInformation.GetErrorNumber]
  · simp [CheckIfPowershellIsInstalled, h1, h2, ErrorInformation.IsThereAnError,
      ErrorInformation.GetErrorNumber]
  · simp [CheckIfPowershellIsInstalled, h1, h2, ErrorInformation.IsThereAnError,
      ErrorInformation.GetErrorNumber, noError]

/-- C3 (witness for the amended theorem): concrete instances of all three
cases. -/
theorem c3_probe_amended_witness :
    ((CheckIfPowershellIsInstalled 7 0 0).1.IsThereAnError = true
        ∧ (CheckIfPowershellIsInstalled 7 0 0).1.GetErrorNumber = 7)
    ∧ ((CheckIfPowershellIsInstalled 0 2 5).1.IsThereAnError = true
        ∧ (CheckIfPowershellIsInstalled 0 2 5).1.GetErrorNumber = 2)
    ∧ ((CheckIfPowershellIsInstalled 0 0 0).1.IsThereAnError = false
        ∧ ((CheckIfPowershellIsInstalled 0 0 0).2 = true ↔ (0 : Nat) = 1)) :=
  ⟨(c3_probe_amended 7 0 0).1 (by decide),
    ⟨(c3_probe_amended 0 2 5).2.1 rfl (by decide),
      (c3_probe_amended 0 0 0).2.2 rfl rfl⟩⟩

/-! ### C4 and C10 — the runInVirtualEnvironment flag of script launches -/

/-- Oracle for the C4 counterexample: the script file exists and every
launch succeeds. -/
def c4os : OS :=
  { registryCreateResult := 0, registryQueryResult := 0, registryValue := 1,
    fileExists := fun _ => true,
    createProcess := fun _ _ _ _ _ => CreateProcessOutcome.ranWaitSignaled,
    shellExecute := fun _ _ _ => none,
    shellExecuteElevated := fun _ _ _ => none }

/-- Script spec for the C4 counterexample: `runInVirtualEnvironment`
present (value `"true"`). -/
def c4spec : ScriptSpec :=
  { scriptPath := ("s.ps1"), scriptArguments := none,
    runInVirtualEnvironment := some ("true") }

/-- C4 (counterexample): for a script whose `runInVirtualEnvironment` is
true, the launch recorded by `RunScript`/`StartProcess` has the
desktop-app-policy attribute **attached** (`[true]`), while the claim
says that with `runInVirtualEnvironment` true no breakaway attribute is
attached and that the attribute is attached when the setting is false or
absent — the inversion the claim describes does not exist in the code. -/
theorem c4_breakaway_counterexample :
    c4spec.runInVirtualEnvironment = some ("true")
      ∧ createProcessAttrFlags ((RunScript c4os c4spec ("pkg") ("") 1).2) = [true] :=
  ⟨rfl, rfl⟩

/-- C4 (amended): the flag handed to `StartProcess` is the script's
`runInVirtualEnvironment` setting itself, **not** inverted: the
desktop-app-policy attribute
(`PROCESS_CREATION_DESKTOP_APP_BREAKAWAY_DISABLE_PROCESS_TREE`, which
keeps the child inside the container tree) is attached to the single
launch exactly when the setting is present, and no attribute is attached
when it is absent. -/
theorem c4_breakaway_amended (os : OS) (spec : ScriptSpec) (packageRoot dirStr : String)
    (cmdShow : Nat)
    (h : os.fileExists (joinPath (joinPath packageRoot dirStr) spec.scriptPath) = true) :
    createProcessAttrFlags ((RunScript os spec packageRoot dirStr cmdShow).2)
      = [spec.runInVirtualEnvironment.isSome] := by
  simp only [RunScript, h, if_true]
  rw [startProcess_events]
  rfl

/-- C4 (witness for the amended theorem): a script with the setting
absent launches without the attribute. -/
theorem c4_breakaway_amended_witness :
    createProcessAttrFlags ((RunScript c4os
        { scriptPath := ("s.ps1"), scriptArguments := none, runInVirtualEnvironment := none }
        ("pkg") ("") 1).2)
      = [(none : Option String).isSome] :=
  c4_breakaway_amended c4os
    { scriptPath := ("s.ps1"), scriptArguments := none, runInVirtualEnvironment := none }
    ("pkg") ("") 1 rfl

/-- C10: the `runInVirtualEnvironment` key is read via `as_string()` and
the resulting pointer is assigned to a `bool` (main.cpp line 199), so the
flag — observable as the attribute on the recorded launch — is true
whenever the key is present with **any** string value (`"false"` and
`"0"` included), and false only when the key is absent. -/
theorem c10_runInVirtualEnvironment_presence (os : OS) (spec : ScriptSpec)
    (packageRoot dirStr : String) (cmdShow : Nat) (v : String)
    (h : os.fileExists (joinPath (joinPath packageRoot dirStr) spec.scriptPath) = true) :
    createProcessAttrFlags ((RunScript os
        { spec with runInVirtualEnvironment := some v } packageRoot dirStr cmdShow).2)
      = [true]
    ∧ createProcessAttrFlags ((RunScript os
        { spec with runInVirtualEnvironment := none } packageRoot dirStr cmdShow).2)
      = [false] := by
  constructor <;>
    · rw [c4_breakaway_amended] <;> simp [h]

/-- C10 (witness): the values `"false"` and `"0"` still yield the flag
true; an absent key yields false. -/
theorem c10_runInVirtualEnvironment_presence_witness :
    (createProcessAttrFlags ((RunScript c4os
        { scriptPath := ("s.ps1"), scriptArguments := none,
          runInVirtualEnvironment := some ("false") } ("pkg") ("") 1).2) = [true])
    ∧ (createProcessAttrFlags ((RunScript c4os
        { scriptPath := ("s.ps1"), scriptArguments := none,
          runInVirtualEnvironment := some ("0") } ("pkg") ("") 1).2) = [true])
    ∧ (createProcessAttrFlags ((RunScript c4os
        { scriptPath := ("s.ps1"), scriptArguments := none,
          runInVirtualEnvironment := none } ("pkg") ("") 1).2) = [false]) :=
  ⟨(c10_runInVirtualEnvironment_presence c4os
      { scriptPath := ("s.ps1"), scriptArguments := none, runInVirtualEnvironment := none }
      ("pkg") ("") 1 ("false") rfl).1,
    (c10_runInVirtualEnvironment_presence c4os
      { scriptPath := ("s.ps1"), scriptArguments := none, runInVirtualEnvironment := none }
      ("pkg") ("") 1 ("0") rfl).1,
    (c10_runInVirtualEnvironment_presence c4os
      { scriptPath := ("s.ps1"), scriptArguments := none, runInVirtualEnvironment := none }
      ("pkg") ("") 1 ("0") rfl).2⟩

/-! ### C7 — missing script file -/

/-- Oracle for the C7 counterexample: the script file does not exist. -/
def c7os : OS :=
  { registryCreateResult := 0, registryQueryResult := 0, registryValue := 1,
    fileExists := fun _ => false,
    createProcess := fun _ _ _ _ _ => CreateProcessOutcome.ranWaitSignaled,
    shellExecute := fun _ _ _ => none,
    shellExecuteElevated := fun _ _ _ => none }

/-- Script spec for the C7 counterexample. -/
def c7spec : ScriptSpec :=
  { scriptPath := ("go.ps1"), scriptArguments := none, runInVirtualEnvironment := none }

/-- C7 (counterexample): when the resolved script file does not exist,
the error message is `The PowerShell file <path> can't be found` — not
`The script file <path> can't be found` as the claim states — and no
child launch is attempted. -/
theorem c7_missing_script_counterexample :
    (RunScript c7os c7spec ("pkg") ("") 1).1.err
        = some (("The PowerShell file pkg\\go.ps1 can't be found"), ERROR_FILE_NOT_FOUND)
      ∧ (("The PowerShell file pkg\\go.ps1 can't be found") : String)
          ≠ ("The script file pkg\\go.ps1 can't be found")
      ∧ ((RunScript c7os c7spec ("pkg") ("") 1).2.all fun ev => !ev.isLaunch) = true :=
  ⟨by decide, by decide, rfl⟩

/-- C7 (amended): when `packageRoot / workingDirectory / scriptPath` does
not exist, `RunScript` returns an ErrorRecord whose message is
`The PowerShell file <scriptFullPath> can't be found` with the
file-not-found code, and the only recorded action is the existence probe
— no child launch is attempted. -/
theorem c7_missing_script_amended (os : OS) (spec : ScriptSpec) (packageRoot dirStr : String)
    (cmdShow : Nat)
    (h : os.fileExists (joinPath (joinPath packageRoot dirStr) spec.scriptPath) = false) :
    RunScript os spec packageRoot dirStr cmdShow
      = ({ err := some (("The PowerShell file ")
              ++ joinPath (joinPath packageRoot dirStr) spec.scriptPath
              ++ (" can't be found"), ERROR_FILE_NOT_FOUND), exeName := none },
         [Event.fileProbe (joinPath (joinPath packageRoot dirStr) spec.scriptPath)]) := by
  simp only [RunScript, h]
  rfl

/-- C7 (witness for the amended theorem). -/
theorem c7_missing_script_amended_witness :
    RunScript c7os c7spec ("pkg") ("") 1
      = ({ err := some (("The PowerShell file ")
              ++ joinPath (joinPath ("pkg") ("")) ("go.ps1")
              ++ (" can't be found"), ERROR_FILE_NOT_FOUND), exeName := none },
         [Event.fileProbe (joinPath (joinPath ("pkg") ("")) ("go.ps1"))]) :=
  c7_missing_script_amended c7os c7spec ("pkg") ("") 1 rfl

/-! ### C8 — suffix dispatch of the primary-application stage -/

/-- Lowercasing commutes with `drop`. -/
theorem ilower_drop (s : List Char) (n : Nat) :
    ilower (s.drop n) = (ilower s).drop n := by
  simp [ilower]

/-- `check_suffix_if` agrees with the case-insensitive ends-with test. -/
theorem check_suffix_if_eq_endsWith (s t : List Char) :
    check_suffix_if s t = endsWithCaseInsensitive s t := by
  have h1 : (ilower s).length = s.length := by simp [ilower]
  have h2 : (ilower t).length = t.length := by simp [ilower]
  by_cases hc : t.length ≤ s.length ∧ ilower (s.drop (s.length - t.length)) = ilower t
  · have hsuf : ilower t <:+ ilower s := by
      rw [List.suffix_iff_eq_drop, h1, h2, ← ilower_drop, hc.2]
    simp only [check_suffix_if, if_pos hc, endsWithCaseInsensitive]
    exact (List.isSuffixOf_iff_suffix.mpr hsuf).symm
  · have hsuf : ¬ ilower t <:+ ilower s := by
      intro hs
      apply hc
      refine ⟨?_, ?_⟩
      · have := hs.length_le
        rw [h1, h2] at this
        exact this
      · have hdrop := List.suffix_iff_eq_drop.mp hs
        rw [h1, h2] at hdrop
        rw [ilower_drop, ← hdrop]
    simp only [check_suffix_if, if_neg hc, endsWithCaseInsensitive]
    exact (Bool.eq_false_iff.mpr fun htrue =>
      hsuf (List.isSuffixOf_iff_suffix.mp htrue)).symm

/-- C8: for every primary-application launch, if the configured
executable ends with `.exe` compared case-insensitively, the
direct-exec strategy is used — the single recorded launch is a
`CreateProcessW` with `applicationName = packageRoot / executable` and no
shell activation; otherwise the shell-activate strategy is used on
`packageRoot / executable` and no direct create-process is issued. -/
theorem c8_suffix_dispatch (os : OS) (cfg : Config) (appConfig : AppConfig) (args : String)
    (cmdShow : Nat) (dirStr : String) (e : ErrorInformation) (evs : List Event)
    (h : primaryStage os cfg appConfig args cmdShow dirStr = (e, evs)) :
    (endsWithCaseInsensitive appConfig.executable.data ((".exe").data) = true →
      createProcessAppNames evs = [some (joinPath cfg.packageRoot appConfig.executable)]
        ∧ shellExecuteCount evs = 0)
    ∧ (endsWithCaseInsensitive appConfig.executable.data ((".exe").data) = false →
      createProcessCount evs = 0
        ∧ shellExecuteFiles evs = [joinPath cfg.packageRoot appConfig.executable]) := by
  constructor
  · intro hs
    rw [← check_suffix_if_eq_endsWith] at hs
    simp only [primaryStage, hs, if_true] at h
    have hev : evs = (StartProcess os
        { ApplicationName := some (joinPath cfg.packageRoot appConfig.executable),
          CommandLine := ("\"") ++ pathFilename (joinPath cfg.packageRoot appConfig.executable)
            ++ ("\" ") ++ appConfig.arguments.getD ("") ++ (" ") ++ args,
          CurrentDirectory := some (joinPath cfg.packageRoot dirStr) } cmdShow false).2 :=
      (congrArg Prod.snd h).symm
    rw [hev, startProcess_events]
    exact ⟨rfl, rfl⟩
  · intro hs
    rw [← check_suffix_if_eq_endsWith] at hs
    simp only [primaryStage, hs, Bool.false_eq_true, if_false] at h
    have hev : evs = (StartWithShellExecute os cfg.packageRoot appConfig.executable
        (appConfig.arguments.getD ("")) dirStr cmdShow).2 :=
      (congrArg Prod.snd h).symm
    rw [hev, startWithShellExecute_events]
    exact ⟨rfl, rfl⟩

/-- Oracle for the C8 witness: every launch succeeds. -/
def c8os : OS :=
  { registryCreateResult := 0, registryQueryResult := 0, registryValue := 1,
    fileExists := fun _ => true,
    createProcess := fun _ _ _ _ _ => CreateProcessOutcome.ranWaitSignaled,
    shellExecute := fun _ _ _ => none,
    shellExecuteElevated := fun _ _ _ => none }

/-- App entry for the C8 witness: the suffix test must be
case-insensitive, so the executable is upper-case. -/
def c8app : AppConfig :=
  { executable := ("APP.EXE"), arguments := none, workingDirectory := none }

/-- Config for the C8 witness. -/
def c8cfg : Config :=
  { appConfig := some c8app, packageRoot := ("pkg"), startScript := none,
    endScript := none, monitor := none }

/-- C8 (witness): `APP.EXE` dispatches to direct exec with
`applicationName = pkg\APP.EXE`. -/
theorem c8_suffix_dispatch_witness :
    createProcessAppNames (primaryStage c8os c8cfg c8app ("") 1 ("")).2
        = [some (joinPath ("pkg") ("APP.EXE"))]
      ∧ shellExecuteCount (primaryStage c8os c8cfg c8app ("") 1 ("")).2 = 0 :=
  (c8_suffix_dispatch c8os c8cfg c8app ("") 1 ("")
      ((primaryStage c8os c8cfg c8app ("") 1 ("")).1)
      ((primaryStage c8os c8cfg c8app ("") 1 ("")).2) rfl).1 (by decide)

/-! ### C9 — quote-aware program naming in launch-failure messages -/

/-- `wstring::find` locates the first occurrence of `c` right after a
`c`-free prefix. -/
theorem wstringFind_append_cons (c : Char) (l1 l2 : List Char) (h : c ∉ l1) :
    wstringFind (l1 ++ c :: l2) c = some l1.length := by
  induction l1 with
  | nil => simp [wstringFind]
  | cons x xs ih =>
      have hx : ¬ x = c := by
        intro e
        exact h (by simp [e])
      have hm : c ∉ xs := fun hmem => h (List.mem_cons_of_mem _ hmem)
      simp [wstringFind, hx, ih hm]

/-- C9: on a direct create-process launch failure, the ErrorRecord's
message names the program as follows: if `ApplicationName` is non-null
that name is used; otherwise the name is parsed from the command line
quote-aware — a command line starting with a double quote yields the text
between the first pair of quotes, and any other command line yields the
text before the first space. -/
theorem c9_quote_aware_error_naming :
    (∀ (os : OS) (execInfo : ExecutionInformation) (cmdShow : Nat) (ve : Bool) (err : Nat),
      os.createProcess execInfo.ApplicationName execInfo.CommandLine execInfo.CurrentDirectory
          ve cmdShow = CreateProcessOutcome.failed err →
      (StartProcess os execInfo cmdShow ve).1.err
        = some (("ERROR: Failed to create a process for ")
            ++ String.mk (startProcessFailureName (execInfo.ApplicationName.map String.data)
                  execInfo.CommandLine.data)
            ++ (" "), err))
    ∧ (∀ n cmd : List Char, startProcessFailureName (some n) cmd = n)
    ∧ (∀ mid post : List Char, ('"') ∉ mid →
        applicationNameForError (('"') :: mid ++ ('"') :: post) = mid)
    ∧ (∀ pre post : List Char, (' ') ∉ pre → pre.head? ≠ some ('"') →
        applicationNameForError (pre ++ (' ') :: post) = pre) := by
  refine ⟨?_, fun n cmd => rfl, ?_, ?_⟩
  · intro os execInfo cmdShow ve err hfail
    simp only [StartProcess, hfail]
  · intro mid post hq
    have hfind : wstringFind (mid ++ ('"') :: post) ('"') = some mid.length :=
      wstringFind_append_cons _ _ _ hq
    have hhead : ((('"') :: mid ++ ('"') :: post).head? = some ('"')) := rfl
    simp [applicationNameForError, hhead, findFrom, hfind, Nat.add_sub_cancel,
      List.take_left]
  · intro pre post hsp hhd
    have hfind : wstringFind (pre ++ (' ') :: post) (' ') = some pre.length :=
      wstringFind_append_cons _ _ _ hsp
    have hhead : ¬ ((pre ++ (' ') :: post).head? = some ('"')) := by
      cases pre with
      | nil => simp
      | cons x xs => simpa using hhd
    simp [applicationNameForError, hhead, findFrom, hfind, List.take_left]
    intro hcontra
    exact absurd hcontra hhd

/-- Oracle for the C9 witness: every create-process call fails with OS
error 5. -/
def c9os : OS :=
  { registryCreateResult := 0, registryQueryResult := 0, registryValue := 1,
    fileExists := fun _ => true,
    createProcess := fun _ _ _ _ _ => CreateProcessOutcome.failed 5,
    shellExecute := fun _ _ _ => none,
    shellExecuteElevated := fun _ _ _ => none }

/-- C9 (witness): the claim's two literal examples — `"a b" x y` yields
`a b` and `ab x y` yields `ab` — plus a failing launch whose record
carries the parsed name. -/
theorem c9_quote_aware_error_naming_witness :
    applicationNameForError (('"') :: ([('a'), (' '), ('b')]) ++ ('"') :: ([(' '), ('x'), (' '), ('y')]))
        = [('a'), (' '), ('b')]
      ∧ applicationNameForError (([('a'), ('b')]) ++ (' ') :: ([('x'), (' '), ('y')]))
        = [('a'), ('b')]
      ∧ (StartProcess c9os
          { ApplicationName := none, CommandLine := ("\"a b\" x y"), CurrentDirectory := none }
          1 false).1.err
        = some (("ERROR: Failed to create a process for ")
            ++ String.mk (startProcessFailureName
                  (((none : Option String)).map String.data) (("\"a b\" x y").data))
            ++ (" "), 5) :=
  ⟨c9_quote_aware_error_naming.2.2.1 ([('a'), (' '), ('b')]) ([(' '), ('x'), (' '), ('y')])
      (by decide),
    c9_quote_aware_error_naming.2.2.2 ([('a'), ('b')]) ([('x'), (' '), ('y')])
      (by decide) (by decide),
    c9_quote_aware_error_naming.1 c9os
      { ApplicationName := none, CommandLine := ("\"a b\" x y"), CurrentDirectory := none }
      1 false 5 rfl⟩

/-! ### C1 — the post-script always runs after monitor / primary errors -/

/-- A trace without reporter calls is unchanged by dropping reports. -/
theorem filter_not_isReport_of_countReports_zero (evs : List Event)
    (h : countReports evs = 0) :
    evs.filter (fun ev => !ev.isReport) = evs := by
  induction evs with
  | nil => rfl
  | cons ev t ih =>
      rw [countReports_cons] at h
      cases hev : ev.isReport with
      | true =>
          rw [hev] at h
          simp at h
      | false =>
          rw [hev] at h
          simp only [if_false, Nat.zero_add, Bool.false_eq_true] at h
          simp [List.filter_cons, hev, ih h]

/-- C1: whenever an end script is configured, the pipeline after the
pre-script executes it unconditionally: the non-report events of the run
are exactly the monitor/primary events followed by the end script's own
events (whatever error the earlier stages carried), and when the monitor
stage carried an error the primary stage contributed no events — the
post-script is the only stage that runs after that failure. -/
theorem c1_post_script_always_runs (os : OS) (cfg : Config) (appConfig : AppConfig)
    (args : String) (cmdShow : Nat) (dirStr : String) (es : ScriptSpec)
    (e1 : ErrorInformation) (evs1 : List Event) (e2 : ErrorInformation) (evs2 : List Event)
    (hend : cfg.endScript = some es)
    (hmon : monitorStage os cfg cmdShow dirStr = (e1, evs1))
    (hstages : stagesBeforePost os cfg appConfig args cmdShow dirStr = (e2, evs2)) :
    ((launcherAfterPreScript os cfg appConfig args cmdShow dirStr).2.filter
        (fun ev => !ev.isReport))
        = evs2 ++ (RunScript os es cfg.packageRoot dirStr cmdShow).2
    ∧ (e1.IsThereAnError = true → evs2 = evs1) := by
  have hr2 : countReports (RunScript os es cfg.packageRoot dirStr cmdShow).2 = 0 :=
    countReports_runScript ..
  have hev2 : countReports evs2 = 0 := by
    have h := countReports_stagesBeforePost os cfg appConfig args cmdShow dirStr
    rw [hstages] at h
    exact h
  constructor
  · simp only [launcherAfterPreScript, hstages, hend]
    split
    · simp [List.filter_append, filter_not_isReport_of_countReports_zero _ hev2,
        filter_not_isReport_of_countReports_zero _ hr2, List.filter_cons, isReport_report]
    · split
      · simp [List.filter_append, filter_not_isReport_of_countReports_zero _ hev2,
          filter_not_isReport_of_countReports_zero _ hr2, List.filter_cons, isReport_report]
      · simp [List.filter_append, filter_not_isReport_of_countReports_zero _ hev2,
          filter_not_isReport_of_countReports_zero _ hr2]
  · intro herr1
    simp only [stagesBeforePost, hmon, herr1, if_true] at hstages
    rw [Prod.mk.injEq] at hstages
    exact hstages.2.symm

/-- Oracle for the C1 witness: every create-process call fails with OS
error 7, so the non-elevated monitor errors out. -/
def c1os : OS :=
  { registryCreateResult := 0, registryQueryResult := 0, registryValue := 1,
    fileExists := fun _ => true,
    createProcess := fun _ _ _ _ _ => CreateProcessOutcome.failed 7,
    shellExecute := fun _ _ _ => none,
    shellExecuteElevated := fun _ _ _ => none }

/-- App entry for the C1 witness. -/
def c1app : AppConfig :=
  { executable := ("app.exe"), arguments := none, workingDirectory := none }

/-- End script for the C1 witness. -/
def c1es : ScriptSpec :=
  { scriptPath := ("end.ps1"), scriptArguments := none, runInVirtualEnvironment := none }

/-- Config for the C1 witness: a failing non-elevated monitor plus an end
script. -/
def c1cfg : Config :=
  { appConfig := some c1app, packageRoot := ("pkg"), startScript := none,
    endScript := some c1es,
    monitor := some { executable := ("m.exe"), arguments := ("-a"), asadmin := none,
                      wait := none } }

/-- C1 (witness): with the monitor failing, the end script still runs and
the primary stage contributed nothing. -/
theorem c1_post_script_always_runs_witness :
    ((launcherAfterPreScript c1os c1cfg c1app ("") 1 ("")).2.filter
        (fun ev => !ev.isReport))
        = (stagesBeforePost c1os c1cfg c1app ("") 1 ("")).2
          ++ (RunScript c1os c1es c1cfg.packageRoot ("") 1).2
    ∧ ((monitorStage c1os c1cfg 1 ("")).1.IsThereAnError = true →
        (stagesBeforePost c1os c1cfg c1app ("") 1 ("")).2
          = (monitorStage c1os c1cfg 1 ("")).2) :=
  c1_post_script_always_runs c1os c1cfg c1app ("") 1 ("") c1es
    ((monitorStage c1os c1cfg 1 ("")).1) ((monitorStage c1os c1cfg 1 ("")).2)
    ((stagesBeforePost c1os c1cfg c1app ("") 1 ("")).1)
    ((stagesBeforePost c1os c1cfg c1app ("") 1 ("")).2) rfl rfl rfl

/-! ### C2 — precedence and single report -/

/-- C2: when an earlier stage (monitor or primary) carried an error and
the post-script also fails, the run reports exactly once, the reported
record is the earlier error (its message and code are untouched by the
`PowerShell.exe` tagging of main.cpp line 148), and the exit code is the
earlier error's numeric code. -/
theorem c2_error_precedence_single_report (os : OS) (cfg : Config) (appConfig : AppConfig)
    (args : String) (cmdShow : Nat) (es : ScriptSpec) (evs0 : List Event)
    (e2 : ErrorInformation) (evs2 : List Event) (e3 : ErrorInformation) (evs3 : List Event)
    (happ : cfg.appConfig = some appConfig)
    (hend : cfg.endScript = some es)
    (hpre : preScriptPhase os cfg (dirStrOf appConfig) cmdShow = Sum.inr evs0)
    (hstages : stagesBeforePost os cfg appConfig args cmdShow (dirStrOf appConfig)
      = (e2, evs2))
    (herr : e2.IsThereAnError = true)
    (hrs : RunScript os es cfg.packageRoot (dirStrOf appConfig) cmdShow = (e3, evs3))
    (hpost : e3.IsThereAnError = true) :
    launcher_main os cfg args cmdShow
        = (e2.GetErrorNumber,
           evs0 ++ (evs2 ++ evs3
             ++ [Event.report ((e2.AddExeName ("PowerShell.exe")).Print)]))
      ∧ (e2.AddExeName ("PowerShell.exe")).err = e2.err
      ∧ countReports (launcher_main os cfg args cmdShow).2 = 1 := by
  have htagged : (e2.AddExeName ("PowerShell.exe")).IsThereAnError = true := by
    rw [addExeName_isThereAnError]
    exact herr
  have htail : launcherAfterPreScript os cfg appConfig args cmdShow (dirStrOf appConfig)
      = (e2.GetErrorNumber,
         evs2 ++ evs3 ++ [Event.report ((e2.AddExeName ("PowerShell.exe")).Print)]) := by
    simp only [launcherAfterPreScript, hstages, hend, hrs, htagged, if_true,
      addExeName_getErrorNumber]
  have hmain : launcher_main os cfg args cmdShow
      = (e2.GetErrorNumber,
         evs0 ++ (evs2 ++ evs3
           ++ [Event.report ((e2.AddExeName ("PowerShell.exe")).Print)])) := by
    simp only [launcher_main, happ, hpre, htail]
  refine ⟨hmain, rfl, ?_⟩
  rw [hmain]
  have h0 : countReports evs0 = 0 := countReports_preScriptPhase_inr _ _ _ _ _ hpre
  have h2 : countReports evs2 = 0 := by
    have h := countReports_stagesBeforePost os cfg appConfig args cmdShow (dirStrOf appConfig)
    rw [hstages] at h
    exact h
  have h3 : countReports evs3 = 0 := by
    have h := countReports_runScript os es cfg.packageRoot (dirStrOf appConfig) cmdShow
    rw [hrs] at h
    exact h
  simp [countReports_append, h0, h2, h3, countReports_singleton_report]

/-- Oracle for the C2 witness: every create-process call fails with OS
error 5 (so the primary fails) and no file exists (so the end script also
fails, with file-not-found). -/
def c2os : OS :=
  { registryCreateResult := 0, registryQueryResult := 0, registryValue := 1,
    fileExists := fun _ => false,
    createProcess := fun _ _ _ _ _ => CreateProcessOutcome.failed 5,
    shellExecute := fun _ _ _ => none,
    shellExecuteElevated := fun _ _ _ => none }

/-- App entry for the C2 witness. -/
def c2app : AppConfig :=
  { executable := ("app.exe"), arguments := none, workingDirectory := none }

/-- End script for the C2 witness. -/
def c2es : ScriptSpec :=
  { scriptPath := ("end.ps1"), scriptArguments := none, runInVirtualEnvironment := none }

/-- Config for the C2 witness. -/
def c2cfg : Config :=
  { appConfig := some c2app, packageRoot := ("pkg"), startScript := none,
    endScript := some c2es, monitor := none }

/-- C2 (witness): primary fails with code 5, end script fails with
file-not-found; the run exits with 5 and reports once. -/
theorem c2_error_precedence_single_report_witness :
    launcher_main c2os c2cfg ("") 1
        = ((stagesBeforePost c2os c2cfg c2app ("") 1 (dirStrOf c2app)).1.GetErrorNumber,
           [] ++ ((stagesBeforePost c2os c2cfg c2app ("") 1 (dirStrOf c2app)).2
             ++ (RunScript c2os c2es c2cfg.packageRoot (dirStrOf c2app) 1).2
             ++ [Event.report (((stagesBeforePost c2os c2cfg c2app ("") 1
                   (dirStrOf c2app)).1.AddExeName ("PowerShell.exe")).Print)]))
      ∧ ((stagesBeforePost c2os c2cfg c2app ("") 1
            (dirStrOf c2app)).1.AddExeName ("PowerShell.exe")).err
          = (stagesBeforePost c2os c2cfg c2app ("") 1 (dirStrOf c2app)).1.err
      ∧ countReports (launcher_main c2os c2cfg ("") 1).2 = 1 :=
  c2_error_precedence_single_report c2os c2cfg c2app ("") 1 c2es ([])
    ((stagesBeforePost c2os c2cfg c2app ("") 1 (dirStrOf c2app)).1)
    ((stagesBeforePost c2os c2cfg c2app ("") 1 (dirStrOf c2app)).2)
    ((RunScript c2os c2es c2cfg.packageRoot (dirStrOf c2app) 1).1)
    ((RunScript c2os c2es c2cfg.packageRoot (dirStrOf c2app) 1).2)
    rfl rfl rfl rfl rfl rfl rfl

/-! ### C5 — elevated monitor launch failure is dropped by the code -/

/-- Oracle for C5: elevated shell activation fails with OS error 5;
everything else succeeds. -/
def c5os : OS :=
  { registryCreateResult := 0, registryQueryResult := 0, registryValue := 1,
    fileExists := fun _ => true,
    createProcess := fun _ _ _ _ _ => CreateProcessOutcome.ranWaitSignaled,
    shellExecute := fun _ _ _ => none,
    shellExecuteElevated := fun _ _ _ => some 5 }

/-- Config for C5: a monitor with `asadmin` and `wait` set. -/
def c5cfg : Config :=
  { appConfig := some { executable := ("app.exe"), arguments := none,
                        workingDirectory := none },
    packageRoot := ("pkg"), startScript := none, endScript := none,
    monitor := some { executable := ("m.exe"), arguments := ("-x"),
                      asadmin := some true, wait := some true } }

/-- C5: the claim follows the spec's propagation policy (launch failures
are surfaced), but the code drops the record: on elevated shell-activation
failure, main.cpp line 279 constructs the ErrorRecord (tagged with the
monitor executable) into a local that is discarded, and line 295 returns
`{}`.  Concretely: the elevated activation fails (error 5), yet
`LaunchMonitorInBackground` returns no error, the whole run reports
nothing and exits 0. -/
theorem c5_elevated_monitor_failure_swallowed :
    (c5os.shellExecuteElevated (("\"") ++ joinPath ("pkg") ("m.exe") ++ ("\""))
        ("-x") true).isSome = true
      ∧ (LaunchMonitorInBackground c5os ("pkg") ("m.exe") ("-x") true true 1
          ("")).1.IsThereAnError = false
      ∧ (launcher_main c5os c5cfg ("") 1).1 = 0
      ∧ countReports (launcher_main c5os c5cfg ("") 1).2 = 0 :=
  ⟨rfl, rfl, rfl, rfl⟩

/-! ### C6 — the interpreter gate -/

/-- Oracle for the C6 counterexample: PowerShell reported not installed
(registry value 0); all launches succeed. -/
def c6os : OS :=
  { registryCreateResult := 0, registryQueryResult := 0, registryValue := 0,
    fileExists := fun _ => true,
    createProcess := fun _ _ _ _ _ => CreateProcessOutcome.ranWaitSignaled,
    shellExecute := fun _ _ _ => none,
    shellExecuteElevated := fun _ _ _ => none }

/-- Config for the C6 counterexample: an end script but no start
script. -/
def c6cfg : Config :=
  { appConfig := some { executable := ("app.exe"), arguments := none,
                        workingDirectory := none },
    packageRoot := ("pkg"), startScript := none,
    endScript := some { scriptPath := ("end.ps1"), scriptArguments := none,
                        runInVirtualEnvironment := none },
    monitor := none }

/-- C6 (counterexample): the claim covers "pre-script or post-script",
but the interpreter gate of main.cpp lines 86-92 guards only the start
script: with only a post-script configured and the interpreter absent,
the launcher does **not** exit with `E_APPLICATION_NOT_REGISTERED` — it
launches the primary application and the post-script interpreter anyway
and exits 0. -/
theorem c6_interpreter_gate_counterexample :
    (launcher_main c6os c6cfg ("") 1).1 ≠ E_APPLICATION_NOT_REGISTERED
      ∧ ((launcher_main c6os c6cfg ("") 1).2.any Event.isLaunch) = true :=
  ⟨by decide, by decide⟩

/-- C6 (amended): the gate applies to the pre-script only: when a start
script is configured and the probe reports the interpreter absent, the
launcher reports "PowerShell is not installed" and exits with
`E_APPLICATION_NOT_REGISTERED` without launching any child process.  A
configuration with only a post-script is not gated. -/
theorem c6_interpreter_gate_amended (os : OS) (cfg : Config) (appConfig : AppConfig)
    (s : ScriptSpec) (args : String) (cmdShow : Nat)
    (happ : cfg.appConfig = some appConfig)
    (hstart : cfg.startScript = some s)
    (hcreate : os.registryCreateResult = 0)
    (hquery : os.registryQueryResult = 0)
    (hval : os.registryValue ≠ 1) :
    launcher_main os cfg args cmdShow
        = (E_APPLICATION_NOT_REGISTERED, [Event.report powershellNotInstalledMessage])
      ∧ ((launcher_main os cfg args cmdShow).2.all fun ev => !ev.isLaunch) = true := by
  have hbeq : (os.registryValue == 1) = false := by
    rw [beq_eq_false_iff_ne]
    exact hval
  have hprobe : CheckIfPowershellIsInstalled os.registryCreateResult os.registryQueryResult
      os.registryValue = (noError, false) := by
    rw [hcreate, hquery]
    simp [CheckIfPowershellIsInstalled, hbeq]
  have hpre : preScriptPhase os cfg (dirStrOf appConfig) cmdShow
      = Sum.inl (E_APPLICATION_NOT_REGISTERED,
          [Event.report powershellNotInstalledMessage]) := by
    simp only [preScriptPhase, hprobe, hstart]
    simp [ErrorInformation.IsThereAnError, noError]
  have hmain : launcher_main os cfg args cmdShow
      = (E_APPLICATION_NOT_REGISTERED, [Event.report powershellNotInstalledMessage]) := by
    simp only [launcher_main, happ, hpre]
  exact ⟨hmain, by rw [hmain]; rfl⟩

/-- Oracle for the C6 witness: interpreter absent. -/
def c6wos : OS :=
  { registryCreateResult := 0, registryQueryResult := 0, registryValue := 0,
    fileExists := fun _ => true,
    createProcess := fun _ _ _ _ _ => CreateProcessOutcome.ranWaitSignaled,
    shellExecute := fun _ _ _ => none,
    shellExecuteElevated := fun _ _ _ => none }

/-- App entry for the C6 witness. -/
def c6wapp : AppConfig :=
  { executable := ("app.exe"), arguments := none, workingDirectory := none }

/-- Config for the C6 witness: a start script is configured. -/
def c6wcfg : Config :=
  { appConfig := some c6wapp, packageRoot := ("pkg"),
    startScript := some { scriptPath := ("start.ps1"), scriptArguments := none,
                          runInVirtualEnvironment := none },
    endScript := none, monitor := none }

/-- C6 (witness for the amended theorem). -/
theorem c6_interpreter_gate_amended_witness :
    launcher_main c6wos c6wcfg ("") 1
        = (E_APPLICATION_NOT_REGISTERED, [Event.report powershellNotInstalledMessage])
      ∧ ((launcher_main c6wos c6wcfg ("") 1).2.all fun ev => !ev.isLaunch) = true :=
  c6_interpreter_gate_amended c6wos c6wcfg c6wapp
    { scriptPath := ("start.ps1"), scriptArguments := none, runInVirtualEnvironment := none }
    ("") 1 rfl rfl rfl rfl (by decide)

end PsfLauncher
